import Mathlib

/-!
Shallow embedding of the remote audio transport and session manager
(`RemoteAudioIO` in `src/glados/audio_io/remote_io.py`) and proofs of the
spec's claims about it.

Modelling choices:
* Python floats are modelled as rationals (`ℚ`); no claim here depends on
  floating-point rounding.
* The external VAD model is a black box, passed as a function
  `vad : List ℚ → ℚ` (an activity score for a chunk), exactly as the spec
  treats it.
* `numpy`'s conversion `np.array(x, dtype=np.float32)` followed by `len`
  is external library behaviour; it is passed as a parameter
  `conv : Json → Except PyExc (List ℚ)` returning either the flat float list
  or the Python exception the conversion/len raises.
* Websocket clients are identified by naturals; the mutex-guarded client set
  is a `Finset ℕ`.  Per-client send success is an oracle `fails : ℕ → Bool`
  (the code treats a failing send as a disconnect and prunes the client).
* Messages received by the per-connection read loop are `Option Json`:
  `none` is a payload on which `json.loads` raises `JSONDecodeError`.
-/

/-- JSON values, as produced by `json.loads`. -/
inductive Json where
  | null : Json
  | bool (b : Bool) : Json
  | num (q : ℚ) : Json
  | str (s : String) : Json
  | arr (elems : List Json) : Json
  | obj (fields : List (String × Json)) : Json

/-- Python exceptions relevant to the message-handling code paths. -/
inductive PyExc where
  | jsonDecodeError : PyExc
  | keyError : PyExc
  | valueError : PyExc
  | typeError : PyExc
  | attributeError : PyExc
deriving DecidableEq

/-- The exception classes caught by the per-message handler
(`except (json.JSONDecodeError, KeyError, ValueError)`). -/
def caughtExc : PyExc → Bool
  | .jsonDecodeError => true
  | .keyError => true
  | .valueError => true
  | .typeError => false
  | .attributeError => false

/-- Dictionary lookup on a decoded JSON object (`dict.get` / `dict[k]`);
`json.loads` keeps the last occurrence of a duplicated key. -/
def jsonGet (fields : List (String × Json)) (k : String) : Option Json :=
  fields.foldl (fun acc p => if p.1 = k then some p.2 else acc) none

/-- `data.get("type") == t` for a string discriminator `t`. -/
def isType (fields : List (String × Json)) (t : String) : Bool :=
  match jsonGet fields "type" with
  | some (.str s) => s = t
  | _ => false

/-- Whether a JSON value is an object; `.get` on anything else raises
`AttributeError` in Python. -/
def isObj : Json → Bool
  | .obj _ => true
  | _ => false

/-- Outbound frames the server sends to clients. -/
inductive OutMsg where
  | config (sample_rate chunk_size : Nat) (format : String) : OutMsg
  | pong : OutMsg
  | errorMsg (message : String) : OutMsg
  | audioPlayback (data : List ℚ) (sample_rate : Nat) (text : String) : OutMsg
  | stopPlayback : OutMsg
deriving DecidableEq

/-- Class constants of `RemoteAudioIO`. -/
def SAMPLE_RATE : Nat := 16000

def VAD_THRESHOLD : ℚ := 8/10

def WS_PORT : Nat := 8765

def MAX_CLIENTS : Nat := 10

def AUDIO_CHUNK_SIZE : Nat := 1024

/-- The mutable state of a `RemoteAudioIO` instance.  `gen` counts playbacks
that were actually started and `pendingTimers` holds the generation ids of
scheduled, not-yet-fired completion timers (`threading.Timer` instances;
the code never cancels them). -/
structure ServerState where
  vad_threshold : ℚ
  ws_port : Nat
  sample_queue : List (List ℚ × Bool)
  is_listening : Bool
  is_playing : Bool
  stop_event : Bool
  clients : Finset Nat
  gen : Nat
  pendingTimers : List Nat
deriving DecidableEq

/-- `RemoteAudioIO.__init__(vad_threshold, ws_port)`: defaults are applied,
then the threshold is validated; out-of-range thresholds raise
`ValueError` before any state exists. -/
def remoteInit (vad_threshold : Option ℚ) (ws_port : Option Nat) :
    Except String ServerState :=
  let t := vad_threshold.getD VAD_THRESHOLD
  let p := ws_port.getD WS_PORT
  if 0 ≤ t ∧ t ≤ 1 then
    .ok { vad_threshold := t, ws_port := p, sample_queue := [],
          is_listening := false, is_playing := false, stop_event := false,
          clients := ∅, gen := 0, pendingTimers := [] }
  else
    .error "VAD threshold must be between 0 and 1"

/-- `get_connected_clients`: `len(self._clients)`. -/
def get_connected_clients (st : ServerState) : Nat := st.clients.card

/-- `check_if_speaking`: `self._is_playing`. -/
def check_if_speaking (st : ServerState) : Bool := st.is_playing

/-- `measure_percentage_spoken(total_samples, sample_rate)`:
`(not is_playing, 100 if not is_playing else 0)`; the arguments are unused. -/
def measure_percentage_spoken (st : ServerState) (_total_samples : Nat)
    (_sample_rate : Option Nat) : Bool × Nat :=
  (!st.is_playing, if st.is_playing then 0 else 100)

/-- Connection accept (`handle_client`, capacity check under the client
lock).  Returns the new state, the frames sent to the connecting client,
and whether the connection was admitted (`false` means it was sent the
frames and then closed without ever being registered). -/
def acceptClient (st : ServerState) (c : Nat) :
    ServerState × List OutMsg × Bool :=
  if MAX_CLIENTS ≤ st.clients.card then
    (st, [.errorMsg "Server at maximum capacity"], false)
  else
    ({ st with clients := insert c st.clients },
     [.config SAMPLE_RATE AUDIO_CHUNK_SIZE "float32"], true)

/-- Result of processing one inbound message in the session read loop:
either the loop continues (with the new server state, the frames sent in
reply, and the number of VAD-model invocations), or the session
terminates (`break` on shutdown, or an exception escaping the inner
`try`). -/
inductive StepResult where
  | ok (st : ServerState) (sent : List OutMsg) (vadCalls : Nat) : StepResult
  | closed (st : ServerState) : StepResult

/-- Body of the read loop for a message that decoded to a JSON object
(lines 114-125 of `remote_io.py`), with the inner `except` clause
applied: a caught exception logs a warning and continues, any other
exception escapes and terminates the session. -/
def handleObj (conv : Json → Except PyExc (List ℚ)) (vad : List ℚ → ℚ)
    (st : ServerState) (fields : List (String × Json)) : StepResult :=
  if isType fields "audio" then
    match jsonGet fields "data" with
    | none => .ok st [] 0
    | some d =>
      match conv d with
      | .error e => if caughtExc e then .ok st [] 0 else .closed st
      | .ok chunk =>
        if 0 < chunk.length then
          .ok { st with sample_queue :=
                  st.sample_queue ++ [(chunk, decide (st.vad_threshold < vad chunk))] }
             [] 1
        else
          .ok st [] 0
  else if isType fields "ping" then
    .ok st [.pong] 0
  else
    .ok st [] 0

/-- One iteration of the session read loop (lines 108-129 of
`remote_io.py`): the shutdown check, `json.loads`, the `.get` dispatch.
A parse failure is a caught `JSONDecodeError`; a decoded non-object value
raises `AttributeError` at `data.get("type")`, which the inner `except`
does not catch, so the session terminates. -/
def handleMessage (conv : Json → Except PyExc (List ℚ)) (vad : List ℚ → ℚ)
    (st : ServerState) (raw : Option Json) : StepResult :=
  if st.stop_event then .closed st
  else
    match raw with
    | none => .ok st [] 0
    | some (.obj fields) => handleObj conv vad st fields
    | some _ => .closed st

/-- `stop_speaking()`: no-op when idle; otherwise clears `_is_playing`,
broadcasts `stop_playback` to every client, and prunes clients whose send
failed.  Returns the new state and the set of clients the frame was
delivered to. -/
def stop_speaking (fails : Nat → Bool) (st : ServerState) :
    ServerState × Finset Nat :=
  if st.is_playing then
    let survivors := st.clients.filter (fun c => fails c = false)
    ({ st with is_playing := false, clients := survivors }, survivors)
  else
    (st, ∅)

/-- The outcome of a `start_speaking` call: final state, recipients of the
`stop_playback` frame sent by the implicit `stop_speaking`, recipients of
the `audio_playback` frame, whether this call scheduled a completion
timer, whether the empty-audience warning was logged, and the message of
the raised exception if any (the state field is the state at the moment
control returns to the caller). -/
structure SpeakResult where
  st : ServerState
  stopRecipients : Finset Nat
  playRecipients : Finset Nat
  timerScheduled : Bool
  warned : Bool
  error : Option String

/-- `start_speaking(audio_data, sample_rate, text)`.  The audio argument is
either a float array or a non-array value (`isinstance` check).  Invalid
input raises `ValueError("Invalid audio data")` before anything else;
otherwise the previous playback is stopped, and with no clients connected
a warning is logged and the state is left idle; with clients connected
the `audio_playback` frame is broadcast (failed sends prune the client)
and a one-shot completion timer for this playback's generation is
scheduled. -/
inductive AudioArg where
  | floatArray (samples : List ℚ) : AudioArg
  | notArray : AudioArg

def start_speaking (fails : Nat → Bool) (st : ServerState) (audio : AudioArg)
    (sample_rate : Option Nat) (_text : String) : SpeakResult :=
  match audio with
  | .notArray =>
      ⟨st, ∅, ∅, false, false, some "Invalid audio data"⟩
  | .floatArray samples =>
      if samples.length = 0 then
        ⟨st, ∅, ∅, false, false, some "Invalid audio data"⟩
      else
        let _sr := sample_rate.getD SAMPLE_RATE
        let stopped := stop_speaking fails st
        let st1 := stopped.1
        let st2 := { st1 with is_playing := true }
        if st2.clients = ∅ then
          ⟨{ st2 with is_playing := false }, stopped.2, ∅, false, true, none⟩
        else
          let survivors := st2.clients.filter (fun c => fails c = false)
          let st3 := { st2 with clients := survivors
                                gen := st2.gen + 1
                                pendingTimers := st2.pendingTimers ++ [st2.gen] }
          ⟨st3, stopped.2, survivors, true, false, none⟩

/-- `_on_playback_complete`: unconditionally clears `_is_playing`. -/
def onPlaybackComplete (st : ServerState) : ServerState :=
  { st with is_playing := false }

/-- A scheduled completion timer of generation `g` fires: it is removed
from the pending set and `_on_playback_complete` runs.  Firing a
non-pending generation is a no-op (such a timer does not exist). -/
def timerFire (g : Nat) (st : ServerState) : ServerState :=
  if g ∈ st.pendingTimers then
    onPlaybackComplete { st with pendingTimers := st.pendingTimers.erase g }
  else
    st

/-- `stop_listening()`: early-returns when not listening; otherwise sets
the stop event, best-effort closes every client and clears the client
set. -/
def stop_listening (st : ServerState) : ServerState :=
  if st.is_listening then
    { st with is_listening := false, stop_event := true, clients := ∅ }
  else
    st

/-- A freshly constructed server (all defaults), used to instantiate
theorems at concrete states. -/
def stEmpty : ServerState :=
  { vad_threshold := 8/10, ws_port := 8765, sample_queue := [],
    is_listening := false, is_playing := false, stop_event := false,
    clients := ∅, gen := 0, pendingTimers := [] }

def stOneClient : ServerState := { stEmpty with clients := {1} }

def stPlaying : ServerState := { stOneClient with is_playing := true }

def stListening : ServerState := { stOneClient with is_listening := true }

def stFull : ServerState :=
  { stEmpty with clients := {0, 1, 2, 3, 4, 5, 6, 7, 8, 9} }

/-- C5: for every `total_samples` and `sample_rate`,
`measure_percentage_spoken` returns `(true, 100)` when the playback state
is idle and `(false, 0)` when it is playing, and `check_if_speaking`
returns `true` exactly when the state is playing. -/
theorem measure_progress_step_function (st : ServerState) (total_samples : Nat)
    (sample_rate : Option Nat) :
    (st.is_playing = false →
      measure_percentage_spoken st total_samples sample_rate = (true, 100)) ∧
    (st.is_playing = true →
      measure_percentage_spoken st total_samples sample_rate = (false, 0)) ∧
    (check_if_speaking st = true ↔ st.is_playing = true) := by
  refine ⟨fun h => ?_, fun h => ?_, ?_⟩ <;>
    simp [measure_percentage_spoken, check_if_speaking, *]

/-- C5 witness: concrete idle and playing states. -/
theorem measure_progress_step_function_witness :
    measure_percentage_spoken stEmpty 5 none = (true, 100) ∧
    measure_percentage_spoken stPlaying 5 none = (false, 0) :=
  ⟨(measure_progress_step_function stEmpty 5 none).1 rfl,
   (measure_progress_step_function stPlaying 5 none).2.1 rfl⟩

/-- C6: construction succeeds for every threshold in `[0,1]` (keeping the
threshold exactly, never clamping it) and for the default, and fails with
a `ValueError` for every threshold outside `[0,1]`. -/
theorem threshold_validation (t : ℚ) (p : Option Nat) :
    (0 ≤ t ∧ t ≤ 1 →
      ∃ st, remoteInit (some t) p = .ok st ∧ st.vad_threshold = t) ∧
    (¬(0 ≤ t ∧ t ≤ 1) →
      remoteInit (some t) p = .error "VAD threshold must be between 0 and 1") ∧
    (∃ st, remoteInit none p = .ok st ∧ st.vad_threshold = VAD_THRESHOLD) := by
  refine ⟨fun h => ?_, fun h => ?_, ?_⟩
  · refine ⟨{ vad_threshold := t, ws_port := p.getD WS_PORT, sample_queue := [],
              is_listening := false, is_playing := false, stop_event := false,
              clients := ∅, gen := 0, pendingTimers := [] }, ?_, rfl⟩
    simp [remoteInit, h]
  · simp [remoteInit, h]
  · refine ⟨{ vad_threshold := VAD_THRESHOLD, ws_port := p.getD WS_PORT,
              sample_queue := [], is_listening := false, is_playing := false,
              stop_event := false, clients := ∅, gen := 0,
              pendingTimers := [] }, ?_, rfl⟩
    have hd : (0:ℚ) ≤ VAD_THRESHOLD ∧ VAD_THRESHOLD ≤ 1 := by
      unfold VAD_THRESHOLD; norm_num
    simp [remoteInit, hd]

/-- C6 witness: threshold `1/2` is accepted unclamped, threshold `3/2` is
rejected. -/
theorem threshold_validation_witness :
    (∃ st, remoteInit (some (1/2)) none = .ok st ∧ st.vad_threshold = 1/2) ∧
    remoteInit (some (3/2)) none = .error "VAD threshold must be between 0 and 1" :=
  ⟨(threshold_validation (1/2) none).1 (by norm_num),
   (threshold_validation (3/2) none).2.1 (by norm_num)⟩

/-- C10: after `stop_listening` on a listening server the client set is
empty, so `get_connected_clients` reports `0`, and a second
`stop_listening` changes nothing. -/
theorem stop_listening_clears_clients (st : ServerState)
    (h : st.is_listening = true) :
    (stop_listening st).clients = ∅ ∧
    get_connected_clients (stop_listening st) = 0 ∧
    stop_listening (stop_listening st) = stop_listening st := by
  simp [stop_listening, h, get_connected_clients]

/-- C10 witness: a listening server with one client. -/
theorem stop_listening_clears_clients_witness :
    (stop_listening stListening).clients = ∅ ∧
    get_connected_clients (stop_listening stListening) = 0 ∧
    stop_listening (stop_listening stListening) = stop_listening stListening :=
  stop_listening_clears_clients stListening rfl

/-- C2: the client set never exceeds `MAX_CLIENTS`; a connection attempt
at capacity is sent `error "Server at maximum capacity"` and closed
without being registered, leaving the state (and hence
`get_connected_clients`) unchanged. -/
theorem capacity_limit (st : ServerState) (c : Nat)
    (hfull : MAX_CLIENTS ≤ st.clients.card) :
    acceptClient st c = (st, [.errorMsg "Server at maximum capacity"], false) ∧
    get_connected_clients (acceptClient st c).1 = get_connected_clients st ∧
    ∀ st2 c2, get_connected_clients st2 ≤ MAX_CLIENTS →
      get_connected_clients (acceptClient st2 c2).1 ≤ MAX_CLIENTS := by
  refine ⟨by simp [acceptClient, hfull], by simp [acceptClient, hfull], ?_⟩
  intro st2 c2 h2
  unfold get_connected_clients acceptClient at *
  split
  · exact h2
  · rename_i hc
    have hle := Finset.card_insert_le c2 st2.clients
    simp only []
    unfold MAX_CLIENTS at *
    omega

/-- C2 witness: an 11th connection attempt against a registry holding 10
clients is rejected and the count stays 10. -/
theorem capacity_limit_witness :
    acceptClient stFull 42 = (stFull, [.errorMsg "Server at maximum capacity"], false) ∧
    get_connected_clients stFull = 10 :=
  ⟨(capacity_limit stFull 42 (by decide)).1, by decide⟩

/-- C1: for an inbound audio message whose decoded float chunk is empty,
the VAD model is not invoked and nothing is queued; for a non-empty
chunk, the VAD model is invoked exactly once and exactly one entry
`(chunk, score > threshold)` is appended to the sample queue, against the
instance's construction-time threshold. -/
theorem audio_vad_gating (conv : Json → Except PyExc (List ℚ))
    (vad : List ℚ → ℚ) (st : ServerState) (fields : List (String × Json))
    (d : Json) (chunk : List ℚ)
    (hstop : st.stop_event = false)
    (htype : jsonGet fields "type" = some (.str "audio"))
    (hdata : jsonGet fields "data" = some d)
    (hconv : conv d = .ok chunk) :
    (chunk = [] →
      handleMessage conv vad st (some (.obj fields)) = .ok st [] 0) ∧
    (chunk ≠ [] →
      handleMessage conv vad st (some (.obj fields)) =
        .ok { st with sample_queue := st.sample_queue ++
                [(chunk, decide (st.vad_threshold < vad chunk))] } [] 1) := by
  have ht : isType fields "audio" = true := by simp [isType, htype]
  constructor
  · intro he
    subst he
    simp [handleMessage, hstop, handleObj, ht, hdata, hconv]
  · intro hne
    have hlen : 0 < chunk.length := List.length_pos.mpr hne
    simp [handleMessage, hstop, handleObj, ht, hdata, hconv, hlen]

/-- C1 witness: a concrete empty chunk is skipped; a concrete one-sample
chunk with VAD score 1 (above the 0.8 threshold) is queued once. -/
theorem audio_vad_gating_witness :
    handleMessage (fun _ => .ok []) (fun _ => 0) stOneClient
      (some (.obj [("type", Json.str "audio"), ("data", Json.null)])) =
      .ok stOneClient [] 0 ∧
    handleMessage (fun _ => .ok [1]) (fun _ => (1 : ℚ)) stOneClient
      (some (.obj [("type", Json.str "audio"), ("data", Json.null)])) =
      .ok { stOneClient with sample_queue := stOneClient.sample_queue ++
              [([1], decide (stOneClient.vad_threshold < (fun _ => (1 : ℚ)) [1]))] }
         [] 1 :=
  ⟨(audio_vad_gating (fun _ => .ok []) (fun _ => 0) stOneClient
      [("type", Json.str "audio"), ("data", Json.null)] Json.null []
      rfl rfl rfl rfl).1 rfl,
   (audio_vad_gating (fun _ => .ok [1]) (fun _ => (1 : ℚ)) stOneClient
      [("type", Json.str "audio"), ("data", Json.null)] Json.null [1]
      rfl rfl rfl rfl).2 (by simp)⟩

/-- C3 counterexample: the message `5` is valid JSON but not an object, so
`data.get("type")` raises `AttributeError`, which the inner `except`
clause does not catch: the read loop terminates and the session closes,
refuting "decoding failure never terminates the session, for any message
content". -/
theorem nonobject_json_closes_session :
    handleMessage (fun _ => .ok []) (fun _ => 0) stOneClient (some (.num 5)) =
      .closed stOneClient := rfl

/-- C3 (amended): a malformed payload or unrecognized type is a non-fatal
per-message failure provided the payload either fails JSON parsing
outright or decodes to a JSON object whose audio-data conversion raises
only caught exception classes (`JSONDecodeError`/`KeyError`/`ValueError`);
in those cases the message is dropped and the read loop continues. -/
theorem malformed_message_nonfatal (conv : Json → Except PyExc (List ℚ))
    (vad : List ℚ → ℚ) (st : ServerState) (raw : Option Json)
    (hstop : st.stop_event = false)
    (hshape : raw = none ∨ ∃ fields, raw = some (Json.obj fields) ∧
        ∀ d e, jsonGet fields "data" = some d → conv d = .error e →
          caughtExc e = true) :
    ∃ st2 sent v, handleMessage conv vad st raw = .ok st2 sent v := by
  rcases hshape with h | ⟨fields, hraw, hconv⟩
  · subst h
    exact ⟨st, [], 0, by simp [handleMessage, hstop]⟩
  · subst hraw
    have hm : handleMessage conv vad st (some (.obj fields)) =
        handleObj conv vad st fields := by
      simp [handleMessage, hstop]
    rw [hm]
    by_cases ha : isType fields "audio" = true
    · rcases hget : jsonGet fields "data" with _ | d
      · exact ⟨st, [], 0, by simp [handleObj, ha, hget]⟩
      · rcases hc : conv d with e | chunk
        · have hce := hconv d e hget hc
          exact ⟨st, [], 0, by simp [handleObj, ha, hget, hc, hce]⟩
        · by_cases hl : 0 < chunk.length
          · exact ⟨{ st with sample_queue := st.sample_queue ++
                [(chunk, decide (st.vad_threshold < vad chunk))] }, [], 1,
              by simp [handleObj, ha, hget, hc, hl]⟩
          · exact ⟨st, [], 0, by simp [handleObj, ha, hget, hc, hl]⟩
    · by_cases hp : isType fields "ping" = true
      · exact ⟨st, [OutMsg.pong], 0, by simp [handleObj, ha, hp]⟩
      · exact ⟨st, [], 0, by simp [handleObj, ha, hp]⟩

/-- C3 (amended) witness: an audio message whose data conversion raises
`ValueError` is dropped and the loop continues. -/
theorem malformed_message_nonfatal_witness :
    ∃ st2 sent v,
      handleMessage (fun _ => .error .valueError) (fun _ => 0) stOneClient
        (some (.obj [("type", Json.str "audio"), ("data", Json.str "zzz")])) =
        .ok st2 sent v :=
  malformed_message_nonfatal _ _ _ _ rfl
    (Or.inr ⟨[("type", Json.str "audio"), ("data", Json.str "zzz")], rfl,
      fun _ e _ hc => by cases hc; rfl⟩)

/-- C7: `start_speaking` on a non-array or empty-array argument raises
`ValueError("Invalid audio data")` before any state change or broadcast:
the state (playback flag, client set, sample queue) is returned exactly
as it was, no frame is delivered to any client, and no timer is
scheduled. -/
theorem invalid_audio_precondition (fails : Nat → Bool) (st : ServerState)
    (audio : AudioArg) (sr : Option Nat) (txt : String)
    (hbad : audio = .notArray ∨ audio = .floatArray []) :
    start_speaking fails st audio sr txt =
      ⟨st, ∅, ∅, false, false, some "Invalid audio data"⟩ := by
  rcases hbad with h | h <;> subst h <;> simp [start_speaking]

/-- C7 witness: a non-array argument against a playing one-client state. -/
theorem invalid_audio_precondition_witness :
    start_speaking (fun _ => false) stPlaying .notArray none "" =
      ⟨stPlaying, ∅, ∅, false, false, some "Invalid audio data"⟩ :=
  invalid_audio_precondition _ _ _ _ _ (Or.inl rfl)

/-- C8: `start_speaking` with valid non-empty audio and zero connected
clients raises nothing, logs the warning, delivers no frame to anyone,
schedules no completion timer, and leaves the playback state idle at
return (pending timers unchanged). -/
theorem empty_audience_start_speaking (fails : Nat → Bool) (st : ServerState)
    (samples : List ℚ) (sr : Option Nat) (txt : String)
    (hne : samples ≠ []) (hcl : st.clients = ∅) :
    (start_speaking fails st (.floatArray samples) sr txt).error = none ∧
    (start_speaking fails st (.floatArray samples) sr txt).warned = true ∧
    (start_speaking fails st (.floatArray samples) sr txt).stopRecipients = ∅ ∧
    (start_speaking fails st (.floatArray samples) sr txt).playRecipients = ∅ ∧
    (start_speaking fails st (.floatArray samples) sr txt).timerScheduled = false ∧
    (start_speaking fails st (.floatArray samples) sr txt).st.is_playing = false ∧
    (start_speaking fails st (.floatArray samples) sr txt).st.pendingTimers =
      st.pendingTimers := by
  have hlen : ¬ samples.length = 0 := by simpa using hne
  by_cases hp : st.is_playing = true
  · simp [start_speaking, stop_speaking, hlen, hcl, hp]
  · have hp2 : st.is_playing = false := by simpa using hp
    simp [start_speaking, stop_speaking, hlen, hcl, hp2]

/-- C8 witness: a fresh server with no clients. -/
theorem empty_audience_start_speaking_witness :
    (start_speaking (fun _ => false) stEmpty (.floatArray [1]) none "hi").error = none ∧
    (start_speaking (fun _ => false) stEmpty (.floatArray [1]) none "hi").warned = true ∧
    (start_speaking (fun _ => false) stEmpty (.floatArray [1]) none "hi").stopRecipients = ∅ ∧
    (start_speaking (fun _ => false) stEmpty (.floatArray [1]) none "hi").playRecipients = ∅ ∧
    (start_speaking (fun _ => false) stEmpty (.floatArray [1]) none "hi").timerScheduled = false ∧
    (start_speaking (fun _ => false) stEmpty (.floatArray [1]) none "hi").st.is_playing = false ∧
    (start_speaking (fun _ => false) stEmpty (.floatArray [1]) none "hi").st.pendingTimers =
      stEmpty.pendingTimers :=
  empty_audience_start_speaking _ _ _ _ _ (by simp) rfl

/-- Helper: any `stop_speaking` call leaves the playback flag cleared. -/
theorem stop_speaking_result_idle (fails : Nat → Bool) (st : ServerState) :
    (stop_speaking fails st).1.is_playing = false := by
  by_cases h : st.is_playing = true <;> simp [stop_speaking, h]

/-- C9: `stop_speaking` is a no-op when the state is already idle; when
playing it immediately clears the playback flag and delivers
`stop_playback` to every client still in the set (failed sends prune the
client first); consequently `start_speaking` followed immediately by
`stop_speaking` yields `check_if_speaking() = false` with the
`stop_playback` broadcast reaching every still-connected session. -/
theorem stop_speaking_semantics (fails : Nat → Bool) (st : ServerState) :
    (st.is_playing = false → stop_speaking fails st = (st, ∅)) ∧
    (st.is_playing = true →
      (stop_speaking fails st).1.is_playing = false ∧
      ∀ c ∈ (stop_speaking fails st).1.clients,
        c ∈ (stop_speaking fails st).2) ∧
    (∀ (fails2 : Nat → Bool) (audio : AudioArg) (sr : Option Nat) (txt : String),
      check_if_speaking
        (stop_speaking fails2 (start_speaking fails st audio sr txt).st).1 = false ∧
      ((start_speaking fails st audio sr txt).st.is_playing = true →
        ∀ c ∈ (stop_speaking fails2
                 (start_speaking fails st audio sr txt).st).1.clients,
          c ∈ (stop_speaking fails2 (start_speaking fails st audio sr txt).st).2)) := by
  refine ⟨fun h => by simp [stop_speaking, h], fun h => ?_, ?_⟩
  · constructor
    · exact stop_speaking_result_idle fails st
    · simp [stop_speaking, h]
  · intro fails2 audio sr txt
    constructor
    · simpa [check_if_speaking] using
        stop_speaking_result_idle fails2 (start_speaking fails st audio sr txt).st
    · intro h2
      simp [stop_speaking, h2]

/-- C9 witness: stopping an idle server is a no-op, and stopping right
after a successful start on a one-client server clears the flag with the
frame delivered to the surviving client. -/
theorem stop_speaking_semantics_witness :
    stop_speaking (fun _ => false) stEmpty = (stEmpty, ∅) ∧
    check_if_speaking
      (stop_speaking (fun _ => false)
        (start_speaking (fun _ => false) stOneClient
          (.floatArray [1]) none "hi").st).1 = false :=
  ⟨(stop_speaking_semantics (fun _ => false) stEmpty).1 rfl,
   ((stop_speaking_semantics (fun _ => false) stOneClient).2.2
      (fun _ => false) (.floatArray [1]) none "hi").1⟩

/-- C4: evaluation at the failing input.  With one connected client, start
playback A, then start playback B while A's completion timer (generation
0) is still pending; when that stale timer fires,
`_on_playback_complete` unconditionally clears `_is_playing` with no
generation guard, so `check_if_speaking` reads false even though B's own
timer (generation 1) is still pending and `stop_speaking` was never
called: the stale timer corrupts the newer playback's state. -/
theorem stale_timer_resets_newer_playback :
    check_if_speaking
      (timerFire 0 (start_speaking (fun _ => false)
        (start_speaking (fun _ => false) stOneClient (.floatArray [1]) none "A").st
        (.floatArray [2]) none "B").st) = false ∧
    1 ∈ (timerFire 0 (start_speaking (fun _ => false)
        (start_speaking (fun _ => false) stOneClient (.floatArray [1]) none "A").st
        (.floatArray [2]) none "B").st).pendingTimers := by
  constructor
  · rfl
  · decide
